import Mathlib

/-!
Verification development for the HMA multi-trend position controller
(`strategies/hma_multitrend.py`) and the trade ledger analyzers
(`analyzers/trade_list.py`, `analyzers/trade_list_bak.py`).

Prices and indicator readings are modelled as rationals; timestamps as
integers; bar indices as naturals.  Order references are naturals minted
from a counter in the strategy state (the broker assigns them in the
original).  Emitted broker calls (`buy`, `sell`, `cancel`, `close`) are
reified as a list of commands returned next to the updated state.
-/

namespace HmaBt

/-- Stop-loss mode: `sl_mode` parameter ("PCT" | "ATR" | "FIXED"). -/
inductive SlMode | PCT | ATR | FIXED
deriving DecidableEq, Repr

/-- Exit classification tags used by the strategy and analyzers. -/
inductive ExitType | SIGNAL | STOPLOSS | TRAIL | TARGET | OPEN
deriving DecidableEq, Repr

/-- Order side of an emitted broker call (`self.buy` vs `self.sell`). -/
inductive Side | buy | sell
deriving DecidableEq, Repr

/-- Execution type of an order (`bt.Order.Market/Stop/StopTrail/Limit`). -/
inductive ExecType | Market | Stop | StopTrail | Limit
deriving DecidableEq, Repr

/-- Order status values reported by the broker (`bt.Order.*`). -/
inductive OrdStatus | Created | Submitted | Accepted | Completed | Canceled | Margin | Rejected
deriving DecidableEq, Repr

/-- Strategy parameters (the `params` dict of `HmaMultiTrendStrategy`).
Indicator periods are omitted: the indicator math is an external
collaborator and the per-bar readings arrive precomputed in `BarData`. -/
structure Params where
  ignore_before : Option Int := none
  atr_mult : ℚ := 1
  use_sl_tg : Bool := true
  sl_mode : SlMode := .PCT
  sl_value : ℚ := 1/2
  use_trailing : Bool := true
  trail_atr_mult : ℚ := 1
  use_signal_exit : Bool := true
  adx_threshold : ℚ := 20
  reentry_cooldown : Nat := 0
  order_size : ℤ := 1
deriving Repr

/-- Per-bar market state: timestamp, OHLC extract, the four HMA readings,
ATR and ADX, and the bar index (`len(self)`). -/
structure BarData where
  dt : Int
  barIndex : Nat
  close : ℚ
  high : ℚ
  low : ℚ
  hma_fast : ℚ
  hma_mid1 : ℚ
  hma_mid2 : ℚ
  hma_mid3 : ℚ
  atr : ℚ
  adx : ℚ
deriving Repr

/-- Mutable strategy state (the `self.*` fields of the controller).
`lastExitBar = none` models the `-inf` initialization. -/
structure StratState where
  lastClose : Option ℚ := none
  entryOrder : Option Nat := none
  slOrder : Option Nat := none
  trailOrder : Option Nat := none
  positionSize : ℤ := 0
  lastExitType : Option ExitType := none
  lastExitBar : Option Nat := none
  lastTradeId : Option Nat := none
  lastAtrOnEntry : Option ℚ := none
  nextRef : Nat := 0
deriving Repr, DecidableEq

/-- Broker calls emitted by the controller. -/
inductive Cmd
  | marketOrder (side : Side) (ref : Nat) (size : ℤ)
  | stopOrder (side : Side) (ref : Nat) (price : ℚ) (size : ℤ)
  | trailOrder (side : Side) (ref : Nat) (trailamount : ℚ) (size : ℤ)
  | cancelOrder (ref : Nat)
  | closePosition
deriving DecidableEq, Repr

/-- An emitted command is an entry submission (a plain `buy`/`sell`
market order, as opposed to stops, cancels or `close()`). -/
def Cmd.isEntry : Cmd → Bool
  | .marketOrder _ _ _ => true
  | _ => false

/-- `_calc_stoploss`: stop price from entry price per `sl_mode`. -/
def calcStoploss (p : Params) (atr entry_price : ℚ) : ℚ :=
  match p.sl_mode with
  | .PCT => entry_price * (1 - p.sl_value / 100)
  | .ATR => entry_price - p.sl_value * atr
  | .FIXED => entry_price - p.sl_value

/-- The date filter: `self._ignore_before and current_dt < self._ignore_before`. -/
def dateBlocked (p : Params) (b : BarData) : Bool :=
  match p.ignore_before with
  | none => false
  | some t => b.dt < t

/-- The re-entry cooldown test `(bar - self._last_exit_bar) <= reentry_cooldown`
(false while `_last_exit_bar` is still `-inf`). -/
def cooldownActive (p : Params) (s : StratState) (bar : Nat) : Bool :=
  match s.lastExitBar with
  | none => false
  | some e => (bar : ℤ) - (e : ℤ) ≤ (p.reentry_cooldown : ℤ)

/-- `long_cond`: strictly descending-period HMA stack is strictly bullish. -/
def hmaLongCond (b : BarData) : Bool :=
  b.hma_fast > b.hma_mid1 ∧ b.hma_mid1 > b.hma_mid2 ∧ b.hma_mid2 > b.hma_mid3

/-- `short_cond`: the strictly bearish mirror. -/
def hmaShortCond (b : BarData) : Bool :=
  b.hma_fast < b.hma_mid1 ∧ b.hma_mid1 < b.hma_mid2 ∧ b.hma_mid2 < b.hma_mid3

/-- The ATR-gap entry filter inside step 5 of `next`:
`self.p.atr_mult and self._last_close is not None` (note: a zero
multiplier is falsy, disabling the check) and then
`gap > atr_mult * atr` skips the entry. -/
def gapBlocked (p : Params) (s : StratState) (b : BarData) : Bool :=
  match s.lastClose with
  | none => false
  | some lc => p.atr_mult ≠ 0 ∧ |b.close - lc| > p.atr_mult * b.atr

/-- One cancel command per present order reference. -/
def optCancel : Option Nat → List Cmd
  | none => []
  | some r => [Cmd.cancelOrder r]

/-- `HmaMultiTrendStrategy.next`: the per-bar step.  Returns the updated
state and the list of broker calls emitted this bar, in order. -/
def stratNext (p : Params) (s : StratState) (b : BarData) : StratState × List Cmd :=
  -- 1) date filter
  if dateBlocked p b then ({ s with lastClose := some b.close }, [])
  -- 2) ADX filter
  else if b.adx < p.adx_threshold then ({ s with lastClose := some b.close }, [])
  -- 3) pending entry or cooldown
  else if s.entryOrder.isSome || cooldownActive p s b.barIndex then (s, [])
  else
    let longCond := hmaLongCond b
    let shortCond := hmaShortCond b
    -- 5) entry logic (only when flat)
    if s.positionSize = 0 ∧ (longCond || shortCond) then
      if gapBlocked p s b then ({ s with lastClose := some b.close }, [])
      else
        let sz : ℤ := if longCond then p.order_size else -p.order_size
        let cmd := if longCond then Cmd.marketOrder .buy s.nextRef sz
                   else Cmd.marketOrder .sell s.nextRef (-sz)
        -- step 6 still runs; step 7 is vacuous (position untouched by `buy`)
        ({ s with entryOrder := some s.nextRef, nextRef := s.nextRef + 1,
                  lastClose := some b.close }, [cmd])
    else
      -- 6) update last_close, 7) signal-exit on HMA flip
      let s1 := { s with lastClose := some b.close }
      if s.positionSize ≠ 0 ∧ p.use_signal_exit ∧ (longCond || shortCond) ∧
         ((s.positionSize < 0 ∧ longCond) ∨ (s.positionSize > 0 ∧ shortCond)) then
        ({ s1 with slOrder := none, trailOrder := none },
         optCancel s.slOrder ++ optCancel s.trailOrder ++ [Cmd.closePosition])
      else (s1, [])

/-- An order-status event delivered to `notify_order`. -/
structure ReportedOrder where
  ref : Nat
  status : OrdStatus
  size : ℤ
  executedPrice : ℚ
  executedSize : ℤ
  exectype : ExecType
deriving Repr

/-- `HmaMultiTrendStrategy.notify_order`.  `atr` is the current reading
`self.atr[0]` at delivery time. -/
def stratNotifyOrder (p : Params) (atr : ℚ) (s : StratState) (o : ReportedOrder) :
    StratState × List Cmd :=
  -- 1) skip pre-execution statuses
  if o.status = .Created ∨ o.status = .Submitted ∨ o.status = .Accepted then (s, [])
  -- 2) entry order lifecycle
  else if s.entryOrder = some o.ref then
    if o.status = .Completed then
      let entry_price := o.executedPrice
      let s1 := { s with lastAtrOnEntry := some atr }
      if p.use_sl_tg then
        let sl_price := calcStoploss p atr entry_price
        let slRef := s.nextRef
        let s2 := { s1 with slOrder := some slRef, nextRef := s.nextRef + 1 }
        let c1 := [Cmd.stopOrder .sell slRef sl_price |o.executedSize|]
        if p.use_trailing then
          let tRef := s2.nextRef
          ({ s2 with trailOrder := some tRef, nextRef := s2.nextRef + 1, entryOrder := none },
           c1 ++ [Cmd.trailOrder .sell tRef (p.trail_atr_mult * atr) |o.executedSize|])
        else ({ s2 with entryOrder := none }, c1)
      else ({ s1 with entryOrder := none }, [])
    else if o.status = .Canceled ∨ o.status = .Margin ∨ o.status = .Rejected then
      ({ s with entryOrder := none }, [])
    else (s, [])
  -- 3) exit orders
  else if o.status = .Completed then
    if o.exectype = .Stop ∧ s.slOrder = some o.ref then
      let s1 := { s with lastExitType := some .STOPLOSS }
      match s.trailOrder with
      | some t => ({ s1 with trailOrder := none }, [Cmd.cancelOrder t])
      | none => (s1, [])
    else if o.exectype = .StopTrail ∧ s.trailOrder = some o.ref then
      let s1 := { s with lastExitType := some .TRAIL }
      match s.slOrder with
      | some r => ({ s1 with slOrder := none }, [Cmd.cancelOrder r])
      | none => (s1, [])
    else (s, [])
  else (s, [])

/-- One `TradeHistory` element: defensive `getattr` probes on `h.event`
and `h.status` become `Option` fields. -/
structure HistEvent where
  eventExectype : Option ExecType := none
  eventPrice : Option ℚ := none
  eventSize : Option ℚ := none
  statusPrice : Option ℚ := none
deriving Repr

/-- A trade notification (`bt.Trade`) as seen by `notify_trade` and the
analyzers.  `exitTypeTag` is the `_exit_type` attribute the strategy may
have stamped on the trade object. -/
structure ReportedTrade where
  tradeid : Nat
  isopen : Bool
  isclosed : Bool
  size : ℚ
  price : ℚ
  pnl : ℚ
  pnlcomm : ℚ
  dtopen : Int := 0
  dtclose : Int := 0
  barlen : Nat := 0
  exitTypeTag : Option ExitType := none
  history : List HistEvent := []
  priceclose : Option ℚ := none
deriving Repr

/-- `HmaMultiTrendStrategy.notify_trade`.  Returns the updated state and
the exit-type tag stamped onto the trade on close (`none` otherwise).
`barIndex` is `len(self)` at delivery time. -/
def stratNotifyTrade (s : StratState) (barIndex : Nat) (tr : ReportedTrade) :
    StratState × Option ExitType :=
  if tr.isopen then ({ s with lastTradeId := some tr.tradeid }, none)
  else if tr.isclosed then
    -- `getattr(self, '_last_exit_type', None) or 'SIGNAL'`
    let et := match s.lastExitType with
      | some e => e
      | none => ExitType.SIGNAL
    ({ s with lastExitBar := some barIndex, lastExitType := none,
              lastAtrOnEntry := none }, some et)
  else (s, none)

/-! ## Trade ledger: `analyzers/trade_list.py` (current variant) -/

/-- An `open_stats` entry keyed by tradeid (`TradeList.notify_trade`, open
branch).  Fields produced via `_safe` are `Option`s. -/
structure OpenStat where
  tradeid : Nat
  price_in : Option ℚ
  size : ℚ
  entry_bar : Nat
  atr_entry : Option ℚ
  mae_abs : ℚ
  mfe_abs : ℚ
deriving Repr, DecidableEq

/-- A finalized row of `closed_trades`.  The static strategy-parameter
echo columns (`fast`, `mid1`, ..., `tg3`), `symbol`, `ignore_before` and
the ISO date strings are pure copies of configuration/notification inputs
and are omitted; every computed field is kept. -/
structure TLRec where
  dt_in : Int
  dt_out : Int
  price_in : Option ℚ
  price_out : Option ℚ
  size : ℚ
  side : Side
  pnl : ℚ
  pnl_comm : ℚ
  barlen : Int
  tradeid : Nat
  atr_entry : Option ℚ
  atr_pct : Option ℚ
  mae_abs : ℚ
  mfe_abs : ℚ
  exit_type : ExitType
deriving Repr, DecidableEq

/-- Analyzer state: `closed_trades` list plus the `open_stats` map,
modelled as an association list where the head entry wins (matching the
dict's last-write semantics under the cons-on-write update below). -/
structure TLState where
  closedTrades : List TLRec := []
  openStats : List (Nat × OpenStat) := []
deriving Repr

/-- Open branch of `TradeList.notify_trade`: create and store the stat.
`strategyBar` is `len(self.strategy)`; `lastAtr` is
`strategy.last_atr_on_entry`. -/
def tlOpenStat (strategyBar : Nat) (lastAtr : Option ℚ) (tr : ReportedTrade) : OpenStat :=
  { tradeid := tr.tradeid
    price_in := some tr.price
    size := tr.size
    entry_bar := strategyBar
    atr_entry := lastAtr
    mae_abs := 0
    mfe_abs := 0 }

/-- Fallback exit-type scan over `reversed(trade.history)`: first event
from the end whose exectype is Stop/StopTrail/Limit decides. -/
def histExitType : List HistEvent → Option ExitType
  | [] => none
  | h :: rest =>
    match histExitType rest with
    | some e => some e
    | none =>
      match h.eventExectype with
      | some .Stop => some .STOPLOSS
      | some .StopTrail => some .TRAIL
      | some .Limit => some .TARGET
      | _ => none

/-- Exit-price scan over `reversed(trade.history)`: last event carrying a
`price` attribute. -/
def histLastEventPrice : List HistEvent → Option ℚ
  | [] => none
  | h :: rest =>
    match histLastEventPrice rest with
    | some px => some px
    | none => h.eventPrice

/-- The `ClosedTradeRecord` built by the close branch of
`TradeList.notify_trade` from the popped stat and the trade. -/
def tlCloseRec (stats : OpenStat) (strategyBar : Nat) (tr : ReportedTrade) : TLRec :=
  let exit_type := match tr.exitTypeTag with
    | some e => e
    | none => (histExitType tr.history).getD .SIGNAL
  let exit_px : Option ℚ := match histLastEventPrice tr.history with
    | some px => some px
    | none =>
      -- `getattr(trade, 'priceclose', None) or self._safe(trade.price)`
      match tr.priceclose with
      | some pc => if pc ≠ 0 then some pc else some tr.price
      | none => some tr.price
  let atr_pct : Option ℚ := match stats.price_in, stats.atr_entry with
    | some px, some a => if px ≠ 0 ∧ a ≠ 0 then some (a / px) else none
    | _, _ => none
  { dt_in := tr.dtopen
    dt_out := tr.dtclose
    price_in := stats.price_in
    price_out := exit_px
    size := stats.size
    side := if stats.size > 0 then .buy else .sell
    pnl := tr.pnl
    pnl_comm := tr.pnlcomm
    barlen := (strategyBar : Int) - (stats.entry_bar : Int)
    tradeid := tr.tradeid
    atr_entry := stats.atr_entry
    atr_pct := atr_pct
    mae_abs := stats.mae_abs
    mfe_abs := stats.mfe_abs
    exit_type := exit_type }

/-- `TradeList.notify_trade`: open branch stores a stat; close branch pops
the matching stat and appends a record, or returns unchanged when no
matching open stat exists (`if stats is None: return`). -/
def tlNotifyTrade (strategyBar : Nat) (lastAtr : Option ℚ) (s : TLState)
    (tr : ReportedTrade) : TLState :=
  if tr.isopen then
    { s with openStats := (tr.tradeid, tlOpenStat strategyBar lastAtr tr) :: s.openStats }
  else if tr.isclosed then
    match s.openStats.lookup tr.tradeid with
    | none => s  -- no matching open → skip
    | some stats =>
      { closedTrades := s.closedTrades ++ [tlCloseRec stats strategyBar tr]
        openStats := s.openStats.filter (fun kv => kv.1 ≠ tr.tradeid) }
  else s

/-- Per-bar excursion update of one open stat (`TradeList.next`). -/
def tlUpdateStat (hi lo : ℚ) (st : OpenStat) : OpenStat :=
  match st.price_in with
  | none => st
  | some ep =>
    let adverse := if st.size > 0 then ep - lo else hi - ep
    let fav := if st.size > 0 then hi - ep else ep - lo
    { st with mae_abs := max st.mae_abs adverse, mfe_abs := max st.mfe_abs fav }

/-- `TradeList.next`: update MAE/MFE of every open stat from this bar's
high/low. -/
def tlNext (hi lo : ℚ) (s : TLState) : TLState :=
  { s with openStats := s.openStats.map (fun kv => (kv.1, tlUpdateStat hi lo kv.2)) }

/-- Running a trade's open stat through a sequence of bars `(hi, lo)`. -/
def tlRunBars (bars : List (ℚ × ℚ)) (st : OpenStat) : OpenStat :=
  bars.foldl (fun acc hl => tlUpdateStat hl.1 hl.2 acc) st

/-! ## Trade ledger: `analyzers/trade_list_bak.py` (backup variant) -/

/-- One `_open_stats` defaultdict entry of the backup analyzer. -/
structure BakStat where
  entry_px : Option ℚ := none
  size : Option ℚ := none
  mae_abs : ℚ := 0
  mfe_abs : ℚ := 0
  is_long : Bool := true
deriving Repr, DecidableEq

/-- The defaultdict lookup: a missing key yields the default stat. -/
def bakLookup (m : List (Nat × BakStat)) (tid : Nat) : BakStat :=
  (m.lookup tid).getD {}

/-- `TradeList._entry_from_hist`: entry price and size from the first
history event, falling back to `trade.price`/`trade.size`. -/
def entryFromHist (hist : List HistEvent) (tr : ReportedTrade) : ℚ × ℚ :=
  match hist with
  | [] => (tr.price, tr.size)
  | h0 :: _ =>
    match h0.eventPrice, h0.eventSize with
    | some px, some sz => if sz ≠ 0 then (px, sz) else (tr.price, tr.size)
    | _, _ => (tr.price, tr.size)

/-- The price probe of `TradeList._exit_from_hist` on the last history
event: `h.event.price`, else `h.status.price`. -/
def bakHistLastPx (hist : List HistEvent) : Option ℚ :=
  match hist.getLast? with
  | none => none
  | some hL =>
    match hL.eventPrice with
    | some px => some px
    | none => hL.statusPrice

/-- `TradeList._exit_from_hist`: exit price from the last fill-bearing
history event, else the fallback algebra
`entry_px + trade.pnl / entry_sz` (just `entry_px` when the size is 0). -/
def exitFromHist (hist : List HistEvent) (tr : ReportedTrade)
    (entry_px entry_sz : ℚ) : ℚ :=
  match bakHistLastPx hist with
  | some px => px
  | none => if entry_sz ≠ 0 then entry_px + tr.pnl / entry_sz else entry_px

/-- A finalized row of the backup analyzer (`self.rows.append(dict(...))`).
The two datetime echo fields are kept as integers. -/
structure BakRec where
  dt_in : Int
  dt_out : Int
  price_in : ℚ
  price_out : ℚ
  size : ℚ
  pnl : ℚ
  pnl_comm : ℚ
  barlen : Nat
  tradeid : Nat
  atr_entry : Option ℚ
  atr_pct : Option ℚ
  mae_abs : ℚ
  mae_pct : ℚ
  mfe_abs : ℚ
  mfe_pct : ℚ
  ret_pct : ℚ
deriving Repr, DecidableEq

/-- Backup analyzer state. -/
structure BakState where
  rows : List BakRec := []
  openStats : List (Nat × BakStat) := []
deriving Repr

/-- The row built by the close branch of the backup analyzer's
`notify_trade`.  `atr_e`/`close_e` are the strategy attributes
`last_atr_on_entry`/`last_close_on_entry` probed at close time. -/
def bakCloseRow (atr_e close_e : Option ℚ) (st : BakStat) (tr : ReportedTrade) : BakRec :=
  let hist := tr.history
  let ep_sz := entryFromHist hist tr
  let entry_px := ep_sz.1
  let exit_px := exitFromHist hist tr entry_px ep_sz.2
  -- `if size == 0: size = float(self._open_stats[tid]["size"] or 0.0)`
  let size := if ep_sz.2 = 0 then (st.size.getD 0) else ep_sz.2
  let notional := entry_px * |size|
  let mae_pct := if notional ≠ 0 then st.mae_abs / notional else 0
  let mfe_pct := if notional ≠ 0 then st.mfe_abs / notional else 0
  let ret_pct := if notional ≠ 0 then tr.pnlcomm / notional else 0
  -- `(atr_e / close_e) if (atr_e is not None and close_e) else None`
  let atr_pct : Option ℚ := match atr_e, close_e with
    | some a, some c => if c ≠ 0 then some (a / c) else none
    | _, _ => none
  { dt_in := tr.dtopen
    dt_out := tr.dtclose
    price_in := entry_px
    price_out := exit_px
    size := size
    pnl := tr.pnl
    pnl_comm := tr.pnlcomm
    barlen := tr.barlen
    tradeid := tr.tradeid
    atr_entry := atr_e
    atr_pct := atr_pct
    mae_abs := st.mae_abs
    mae_pct := mae_pct
    mfe_abs := st.mfe_abs
    mfe_pct := mfe_pct
    ret_pct := ret_pct }

/-- `trade_list_bak.TradeList.notify_trade`: open branch initializes the
defaultdict entry; close branch appends the finalized row and pops the
stat (the defaultdict never raises on a dangling close). -/
def bakNotifyTrade (atr_e close_e : Option ℚ) (s : BakState) (tr : ReportedTrade) : BakState :=
  if tr.isopen then
    let st0 := bakLookup s.openStats tr.tradeid
    { s with openStats :=
        (tr.tradeid, { st0 with entry_px := some tr.price, size := some tr.size,
                                is_long := tr.size > 0 }) ::
        s.openStats.filter (fun kv => kv.1 ≠ tr.tradeid) }
  else if tr.isclosed then
    { rows := s.rows ++ [bakCloseRow atr_e close_e (bakLookup s.openStats tr.tradeid) tr]
      openStats := s.openStats.filter (fun kv => kv.1 ≠ tr.tradeid) }
  else s

/-- Per-bar excursion update of one backup stat (`trade_list_bak.next`):
moves are floored at 0 and stored via strict-improvement comparison. -/
def bakUpdateStat (hi lo : ℚ) (st : BakStat) : BakStat :=
  match st.entry_px with
  | none => st
  | some ep =>
    let dd := if st.is_long then max 0 (ep - lo) else max 0 (hi - ep)
    let ff := if st.is_long then max 0 (hi - ep) else max 0 (ep - lo)
    let st1 := if dd > st.mae_abs then { st with mae_abs := dd } else st
    if ff > st1.mfe_abs then { st1 with mfe_abs := ff } else st1

/-! ## Concrete inputs used by the closed witness theorems -/

/-- A bullish bar: strictly descending HMA stack, ADX above the default
threshold of 20, ATR 1. -/
def bullBar : BarData :=
  { dt := 0, barIndex := 10, close := 100, high := 101, low := 99,
    hma_fast := 99, hma_mid1 := 98, hma_mid2 := 97, hma_mid3 := 96,
    atr := 1, adx := 25 }

/-- A bearish bar: strictly ascending HMA stack, ADX above threshold. -/
def bearBar : BarData :=
  { dt := 0, barIndex := 10, close := 100, high := 101, low := 99,
    hma_fast := 95, hma_mid1 := 96, hma_mid2 := 97, hma_mid3 := 98,
    atr := 1, adx := 25 }

/-- The bearish bar at ADX 5 (below the default threshold of 20). -/
def lowAdxBar : BarData :=
  { dt := 0, barIndex := 10, close := 100, high := 101, low := 99,
    hma_fast := 95, hma_mid1 := 96, hma_mid2 := 97, hma_mid3 := 98,
    atr := 1, adx := 5 }

/-- The bullish bar after a 10-point jump from a stored last close of 100
(gap 10 > atr_mult × ATR = 1). -/
def gapBar : BarData :=
  { dt := 0, barIndex := 10, close := 110, high := 111, low := 109,
    hma_fast := 105, hma_mid1 := 104, hma_mid2 := 103, hma_mid3 := 102,
    atr := 1, adx := 25 }

/-- A long open position guarded by stop order 3 and trailing order 4. -/
def guardedLong : StratState :=
  { positionSize := 1, slOrder := some 3, trailOrder := some 4, nextRef := 5 }

/-- A flat state that already stores a last close of 100. -/
def gapState : StratState := { lastClose := some 100 }

/-- A completed fill of the fixed stop order 3. -/
def stopFill : ReportedOrder :=
  { ref := 3, status := .Completed, size := -1, executedPrice := 95,
    executedSize := -1, exectype := .Stop }

/-- A completed fill of the trailing stop order 4. -/
def trailFill : ReportedOrder :=
  { ref := 4, status := .Completed, size := -1, executedPrice := 96,
    executedSize := -1, exectype := .StopTrail }

/-- A close notification for tradeid 1. -/
def closedTrade : ReportedTrade :=
  { tradeid := 1, isopen := false, isclosed := true, size := 0, price := 100,
    pnl := -5, pnlcomm := -6 }

/-- The close notification stamped `_exit_type = STOPLOSS`. -/
def stopTaggedTrade : ReportedTrade :=
  { closedTrade with exitTypeTag := some ExitType.STOPLOSS }

/-- The close notification stamped `_exit_type = TRAIL`. -/
def trailTaggedTrade : ReportedTrade :=
  { closedTrade with exitTypeTag := some ExitType.TRAIL }

/-- The close notification stamped `_exit_type = SIGNAL`. -/
def signalTaggedTrade : ReportedTrade :=
  { closedTrade with exitTypeTag := some ExitType.SIGNAL }

/-- An open stat for tradeid 1 with entry price 100. -/
def tagStat : OpenStat :=
  { tradeid := 1, price_in := some 100, size := 1, entry_bar := 3,
    atr_entry := some 1, mae_abs := 0, mfe_abs := 0 }

/-- A state whose entry order 7 is pending. -/
def pendingEntry : StratState := { entryOrder := some 7, nextRef := 8 }

/-- A completed short entry fill of order 7 (negative executed size). -/
def shortEntryFill : ReportedOrder :=
  { ref := 7, status := .Completed, size := -1, executedPrice := 100,
    executedSize := -1, exectype := .Market }

/-! ## Theorems -/

/-- `optCancel` never produces an entry command. -/
theorem optCancel_no_entry (o : Option Nat) : (optCancel o).any Cmd.isEntry = false := by
  cases o <;> simp [optCancel, Cmd.isEntry]

/-- The per-bar step emits an entry command exactly when every gate of
step 1-5 of `next` passes: date filter, ADX filter, no pending entry, no
cooldown, flat position, aligned HMA stack, and the ATR-gap filter not
triggered. -/
theorem stratNext_entry_iff (p : Params) (s : StratState) (b : BarData) :
    ((stratNext p s b).2.any Cmd.isEntry = true) ↔
      (dateBlocked p b = false ∧ (¬ b.adx < p.adx_threshold) ∧ s.entryOrder = none ∧
       cooldownActive p s b.barIndex = false ∧ s.positionSize = 0 ∧
       (hmaLongCond b || hmaShortCond b) = true ∧ gapBlocked p s b = false) := by
  by_cases hdate : dateBlocked p b = true
  · simp [stratNext, hdate]
  by_cases hadx : b.adx < p.adx_threshold
  · simp [stratNext, hdate, hadx]
  cases he : s.entryOrder with
  | some r => simp [stratNext, hdate, hadx, he]
  | none =>
  by_cases hcool : cooldownActive p s b.barIndex = true
  · simp [stratNext, hdate, hadx, he, hcool]
  by_cases hflat : s.positionSize = 0
  · cases hl : hmaLongCond b with
    | true =>
      by_cases hgap : gapBlocked p s b = true
      · simp [stratNext, hdate, hadx, he, hcool, hflat, hl, hgap]
      · simp [stratNext, hdate, hadx, he, hcool, hflat, hl, hgap, Cmd.isEntry]
    | false =>
      cases hs : hmaShortCond b with
      | true =>
        by_cases hgap : gapBlocked p s b = true
        · simp [stratNext, hdate, hadx, he, hcool, hflat, hl, hs, hgap]
        · simp [stratNext, hdate, hadx, he, hcool, hflat, hl, hs, hgap, Cmd.isEntry]
      | false => simp [stratNext, hdate, hadx, he, hcool, hflat, hl, hs]
  · simp only [stratNext]
    rw [if_neg hdate, if_neg hadx, if_neg (by simp [he, hcool]),
        if_neg (fun hc => hflat hc.1)]
    constructor
    · intro hL
      exfalso
      split at hL
      · rw [List.any_append, List.any_append, optCancel_no_entry, optCancel_no_entry] at hL
        simp [Cmd.isEntry] at hL
      · simp at hL
    · intro hR
      exact absurd hR.2.2.2.2.1 hflat

/-- C1: the per-bar step submits an entry command only from a state that
holds no position (`positionSize = 0`) and has no pending entry order, so
a second simultaneously open position on the instrument is unreachable. -/
theorem entry_only_when_flat_and_unpending (p : Params) (s : StratState) (b : BarData)
    (h : ((stratNext p s b).2.any Cmd.isEntry) = true) :
    s.positionSize = 0 ∧ s.entryOrder = none := by
  have hall := (stratNext_entry_iff p s b).mp h
  exact ⟨hall.2.2.2.2.1, hall.2.2.1⟩

/-- Closed witness for C1: a concrete bullish bar from a flat, pending-free
state makes the controller emit an entry, and the theorem's conclusion holds. -/
theorem entry_only_when_flat_and_unpending_witness :
    ((stratNext {} {} bullBar).2.any Cmd.isEntry = true) ∧
    ({} : StratState).positionSize = 0 ∧ ({} : StratState).entryOrder = none := by
  refine ⟨of_decide_eq_true (by with_unfolding_all rfl), ?_⟩
  exact entry_only_when_flat_and_unpending {} {} bullBar (of_decide_eq_true (by with_unfolding_all rfl))

/-- C10: on a bar whose ADX reading is below the configured threshold, the
per-bar step only stores the bar's close into `_last_close`; it emits no
command at all (no entry, no cancel, no close), whatever the position and
protective-order state. -/
theorem adx_below_threshold_only_updates_last_close (p : Params) (s : StratState)
    (b : BarData) (h : b.adx < p.adx_threshold) :
    stratNext p s b = ({ s with lastClose := some b.close }, []) := by
  cases hd : dateBlocked p b <;> simp [stratNext, hd, h]

/-- Closed witness for C10 at a concrete low-ADX bar with an open position,
armed stops and signal-exit enabled. -/
theorem adx_below_threshold_only_updates_last_close_witness :
    stratNext {} guardedLong lowAdxBar =
      ({ guardedLong with lastClose := some lowAdxBar.close }, []) :=
  adx_below_threshold_only_updates_last_close {} guardedLong lowAdxBar (of_decide_eq_true (by with_unfolding_all rfl))

/-- C3 counterexample: on this bar every gate the claim lists passes from a
flat state — bullish monotonic stack, ADX 25 above the threshold, no
position, no pending entry, no cooldown — and the claim's noise gate holds:
the gap between price and the fastest average, |110 − 105| = 5, exceeds
atr_mult × ATR = 1.  Yet the controller submits nothing: the code's gate
measures the jump from the previous stored close (|110 − 100| = 10 > 1)
and *blocks* the entry when that gap is large, the opposite polarity of
the claim. -/
theorem noise_gate_claim_counterexample :
    hmaLongCond gapBar = true ∧
    gapState.positionSize = 0 ∧ gapState.entryOrder = none ∧
    dateBlocked {} gapBar = false ∧ ¬ gapBar.adx < ({} : Params).adx_threshold ∧
    cooldownActive {} gapState gapBar.barIndex = false ∧
    |gapBar.close - gapBar.hma_fast| > ({} : Params).atr_mult * gapBar.atr ∧
    (stratNext {} gapState gapBar).2 = [] :=
  of_decide_eq_true (by with_unfolding_all rfl)

/-- C3 (amended): on a bar where the date, ADX, pending-entry, cooldown,
flat-position and trend-alignment gates all pass, an entry command is
submitted exactly when the ATR-gap filter does not trigger, i.e. when the
multiplier is zero, or no previous close is stored yet, or the absolute
jump from the previous stored close is at most atr_mult × ATR; a zero
multiplier disables the gap check entirely. -/
theorem entry_iff_gap_filter_passes (p : Params) (s : StratState) (b : BarData)
    (hdate : dateBlocked p b = false)
    (hadx : ¬ b.adx < p.adx_threshold)
    (hpend : s.entryOrder = none)
    (hcool : cooldownActive p s b.barIndex = false)
    (hflat : s.positionSize = 0)
    (htrend : (hmaLongCond b || hmaShortCond b) = true) :
    (((stratNext p s b).2.any Cmd.isEntry = true) ↔ gapBlocked p s b = false) ∧
    (p.atr_mult = 0 → gapBlocked p s b = false) := by
  constructor
  · rw [stratNext_entry_iff]
    simp [hdate, hadx, hpend, hcool, hflat, htrend]
  · intro hz
    cases hlc : s.lastClose <;> simp [gapBlocked, hlc, hz]

/-- Closed witness for the amended C3 at the gap bar: the filter triggers
and no entry is emitted. -/
theorem entry_iff_gap_filter_passes_witness :
    ((((stratNext {} gapState gapBar).2.any Cmd.isEntry = true) ↔
        gapBlocked {} gapState gapBar = false) ∧
     (({} : Params).atr_mult = 0 → gapBlocked {} gapState gapBar = false)) :=
  entry_iff_gap_filter_passes {} gapState gapBar (of_decide_eq_true (by with_unfolding_all rfl)) (of_decide_eq_true (by with_unfolding_all rfl)) rfl
    (of_decide_eq_true (by with_unfolding_all rfl)) rfl (of_decide_eq_true (by with_unfolding_all rfl))

/-- C4: when one member of the protective pair fills (status Completed,
matching stored reference), the controller stamps the matching exit type
(`STOPLOSS` for the fixed stop, `TRAIL` for the trailing stop), cancels the
sibling order within the same callback — before any later bar is evaluated
— and the close notification then tags the trade with that exit type. -/
theorem protective_fill_cancels_sibling (p : Params) (atr : ℚ) (s : StratState)
    (o1 o2 : ReportedOrder) (bar : Nat) (tr : ReportedTrade)
    (st4 : OpenStat) (tr3 tr4 : ReportedTrade)
    (hentry : s.entryOrder = none)
    (hsl : s.slOrder = some o1.ref) (htrail : s.trailOrder = some o2.ref)
    (h1s : o1.status = .Completed) (h1t : o1.exectype = .Stop)
    (h2s : o2.status = .Completed) (h2t : o2.exectype = .StopTrail)
    (htro : tr.isopen = false) (htrc : tr.isclosed = true)
    (h3 : tr3.exitTypeTag = some .STOPLOSS) (h4 : tr4.exitTypeTag = some .TRAIL) :
    (stratNotifyOrder p atr s o1 =
       ({ s with lastExitType := some .STOPLOSS, trailOrder := none },
        [Cmd.cancelOrder o2.ref]) ∧
     (stratNotifyTrade (stratNotifyOrder p atr s o1).1 bar tr).2 =
       some ExitType.STOPLOSS ∧
     (tlCloseRec st4 bar tr3).exit_type = ExitType.STOPLOSS) ∧
    (stratNotifyOrder p atr s o2 =
       ({ s with lastExitType := some .TRAIL, slOrder := none },
        [Cmd.cancelOrder o1.ref]) ∧
     (stratNotifyTrade (stratNotifyOrder p atr s o2).1 bar tr).2 =
       some ExitType.TRAIL ∧
     (tlCloseRec st4 bar tr4).exit_type = ExitType.TRAIL) := by
  have hq1 : stratNotifyOrder p atr s o1 =
      ({ s with lastExitType := some .STOPLOSS, trailOrder := none },
       [Cmd.cancelOrder o2.ref]) := by
    simp [stratNotifyOrder, hentry, hsl, htrail, h1s, h1t]
  have hq2 : stratNotifyOrder p atr s o2 =
      ({ s with lastExitType := some .TRAIL, slOrder := none },
       [Cmd.cancelOrder o1.ref]) := by
    simp [stratNotifyOrder, hentry, hsl, htrail, h2s, h2t]
  refine ⟨⟨hq1, ?_, ?_⟩, ⟨hq2, ?_, ?_⟩⟩
  · rw [hq1]
    simp [stratNotifyTrade, htro, htrc]
  · simp [tlCloseRec, h3]
  · rw [hq2]
    simp [stratNotifyTrade, htro, htrc]
  · simp [tlCloseRec, h4]

/-- Closed witness for C4 from a guarded long position: stop order 3 fills
(canceling trailing order 4, tag STOPLOSS) or trailing order 4 fills
(canceling stop order 3, tag TRAIL). -/
theorem protective_fill_cancels_sibling_witness :
    (stratNotifyOrder {} 1 guardedLong stopFill =
       ({ guardedLong with lastExitType := some .STOPLOSS, trailOrder := none },
        [Cmd.cancelOrder trailFill.ref]) ∧
     (stratNotifyTrade (stratNotifyOrder {} 1 guardedLong stopFill).1 11 closedTrade).2 =
       some ExitType.STOPLOSS ∧
     (tlCloseRec tagStat 11 stopTaggedTrade).exit_type = ExitType.STOPLOSS) ∧
    (stratNotifyOrder {} 1 guardedLong trailFill =
       ({ guardedLong with lastExitType := some .TRAIL, slOrder := none },
        [Cmd.cancelOrder stopFill.ref]) ∧
     (stratNotifyTrade (stratNotifyOrder {} 1 guardedLong trailFill).1 11 closedTrade).2 =
       some ExitType.TRAIL ∧
     (tlCloseRec tagStat 11 trailTaggedTrade).exit_type = ExitType.TRAIL) :=
  protective_fill_cancels_sibling {} 1 guardedLong stopFill trailFill 11 closedTrade
    tagStat stopTaggedTrade trailTaggedTrade
    rfl rfl rfl rfl rfl rfl rfl rfl rfl rfl rfl

/-- C5 counterexample: on a low-ADX bar, the open long position of
`guardedLong` faces a strictly bearish monotonic stack with signal-exit
enabled, yet the per-bar step cancels no protective order and submits no
close — the ADX filter (step 2 of `next`) returns before the signal-exit
block ever runs, so the claim's "for every bar" is false as stated. -/
theorem signal_exit_claim_counterexample :
    hmaShortCond lowAdxBar = true ∧
    guardedLong.positionSize > 0 ∧
    ({} : Params).use_signal_exit = true ∧
    (stratNext {} guardedLong lowAdxBar).2 = [] ∧
    (stratNext {} guardedLong lowAdxBar).1.slOrder = some 3 ∧
    (stratNext {} guardedLong lowAdxBar).1.trailOrder = some 4 :=
  of_decide_eq_true (by with_unfolding_all rfl)

/-- C5 (amended): on a bar passing the date, ADX, pending-entry and cooldown gates,
with an open position facing a strictly monotonic opposite-side HMA stack
and signal-exit enabled, the per-bar step cancels whatever protective
orders exist (in order: fixed stop, then trailing stop), then submits
`close()`, and — with no stop fill recorded — the eventual close
notification is tagged `SIGNAL`. -/
theorem signal_exit_cancels_then_closes (p : Params) (s : StratState) (b : BarData)
    (bar : Nat) (tr : ReportedTrade) (stS : OpenStat) (trS : ReportedTrade)
    (hdate : dateBlocked p b = false)
    (hadx : ¬ b.adx < p.adx_threshold)
    (hpend : s.entryOrder = none)
    (hcool : cooldownActive p s b.barIndex = false)
    (hsig : p.use_signal_exit = true)
    (hopp : (s.positionSize < 0 ∧ hmaLongCond b = true) ∨
            (s.positionSize > 0 ∧ hmaShortCond b = true))
    (hlet : s.lastExitType = none)
    (htro : tr.isopen = false) (htrc : tr.isclosed = true)
    (hS : trS.exitTypeTag = some ExitType.SIGNAL) :
    (stratNext p s b).1.slOrder = none ∧
    (stratNext p s b).1.trailOrder = none ∧
    (stratNext p s b).2 =
      optCancel s.slOrder ++ optCancel s.trailOrder ++ [Cmd.closePosition] ∧
    (stratNotifyTrade (stratNext p s b).1 bar tr).2 = some ExitType.SIGNAL ∧
    (tlCloseRec stS bar trS).exit_type = ExitType.SIGNAL := by
  have hpos : s.positionSize ≠ 0 := by
    rcases hopp with ⟨h1, _⟩ | ⟨h1, _⟩ <;> omega
  have htrend : (hmaLongCond b || hmaShortCond b) = true := by
    rcases hopp with ⟨_, h2⟩ | ⟨_, h2⟩ <;> simp [h2]
  have hmain : stratNext p s b =
      ({ s with lastClose := some b.close, slOrder := none, trailOrder := none },
       optCancel s.slOrder ++ optCancel s.trailOrder ++ [Cmd.closePosition]) := by
    simp only [stratNext]
    rw [if_neg (by simp [hdate]), if_neg hadx, if_neg (by simp [hpend, hcool]),
        if_neg (fun hc => hpos hc.1), if_pos ⟨hpos, hsig, htrend, hopp⟩]
  rw [hmain]
  exact ⟨rfl, rfl, rfl, by simp [stratNotifyTrade, htro, htrc, hlet],
    by simp [tlCloseRec, hS]⟩

/-- Closed witness for C5: the guarded long meets a bearish stack, both
protective orders are canceled before `close()`, and the close is tagged
SIGNAL. -/
theorem signal_exit_cancels_then_closes_witness :
    (stratNext {} guardedLong bearBar).1.slOrder = none ∧
    (stratNext {} guardedLong bearBar).1.trailOrder = none ∧
    (stratNext {} guardedLong bearBar).2 =
      optCancel guardedLong.slOrder ++ optCancel guardedLong.trailOrder ++
        [Cmd.closePosition] ∧
    (stratNotifyTrade (stratNext {} guardedLong bearBar).1 11 closedTrade).2 =
      some ExitType.SIGNAL ∧
    (tlCloseRec tagStat 11 signalTaggedTrade).exit_type = ExitType.SIGNAL :=
  signal_exit_cancels_then_closes {} guardedLong bearBar 11 closedTrade
    tagStat signalTaggedTrade
    (of_decide_eq_true (by with_unfolding_all rfl))
    (of_decide_eq_true (by with_unfolding_all rfl)) rfl
    (of_decide_eq_true (by with_unfolding_all rfl)) rfl
    (Or.inr ⟨of_decide_eq_true (by with_unfolding_all rfl),
             of_decide_eq_true (by with_unfolding_all rfl)⟩)
    rfl rfl rfl rfl

/-- C9: on a completed entry fill with protection enabled, both protective
orders are submitted as *sell* orders sized to the absolute executed size,
whatever the sign of the executed entry (short entries get the same
below-entry sell-side stops as longs); the fixed stop's trigger price is
entry × (1 − value/100) in PCT mode, entry − value × ATR in ATR mode, and
entry − value in FIXED mode, and the trailing amount is
trail_atr_mult × ATR. -/
theorem entry_fill_places_sell_stops_below_entry (p : Params) (atr : ℚ)
    (s : StratState) (o : ReportedOrder)
    (hentry : s.entryOrder = some o.ref) (hst : o.status = .Completed)
    (hsl : p.use_sl_tg = true) (htrl : p.use_trailing = true) :
    (stratNotifyOrder p atr s o).2 =
      [Cmd.stopOrder .sell s.nextRef (calcStoploss p atr o.executedPrice) |o.executedSize|,
       Cmd.trailOrder .sell (s.nextRef + 1) (p.trail_atr_mult * atr) |o.executedSize|] ∧
    (p.sl_mode = .PCT →
      calcStoploss p atr o.executedPrice = o.executedPrice * (1 - p.sl_value / 100)) ∧
    (p.sl_mode = .ATR →
      calcStoploss p atr o.executedPrice = o.executedPrice - p.sl_value * atr) ∧
    (p.sl_mode = .FIXED →
      calcStoploss p atr o.executedPrice = o.executedPrice - p.sl_value) := by
  refine ⟨?_, ?_, ?_, ?_⟩
  · simp [stratNotifyOrder, hentry, hst, hsl, htrl]
  all_goals intro hm
  all_goals simp [calcStoploss, hm]

/-- Closed witness for C9 at a concrete *short* entry fill (executed size
−1): the stops are still sell orders priced below the 100 entry. -/
theorem entry_fill_places_sell_stops_below_entry_witness :
    (stratNotifyOrder {} 1 pendingEntry shortEntryFill).2 =
      [Cmd.stopOrder .sell pendingEntry.nextRef
         (calcStoploss {} 1 shortEntryFill.executedPrice) |shortEntryFill.executedSize|,
       Cmd.trailOrder .sell (pendingEntry.nextRef + 1)
         (({} : Params).trail_atr_mult * 1) |shortEntryFill.executedSize|] ∧
    (({} : Params).sl_mode = .PCT →
      calcStoploss {} 1 shortEntryFill.executedPrice =
        shortEntryFill.executedPrice * (1 - ({} : Params).sl_value / 100)) ∧
    (({} : Params).sl_mode = .ATR →
      calcStoploss {} 1 shortEntryFill.executedPrice =
        shortEntryFill.executedPrice - ({} : Params).sl_value * 1) ∧
    (({} : Params).sl_mode = .FIXED →
      calcStoploss {} 1 shortEntryFill.executedPrice =
        shortEntryFill.executedPrice - ({} : Params).sl_value) :=
  entry_fill_places_sell_stops_below_entry {} 1 pendingEntry shortEntryFill
    rfl rfl rfl rfl


/-- A close notification whose tradeid has no open stat anywhere. -/
def danglingClose : ReportedTrade :=
  { tradeid := 7, isopen := false, isclosed := true, size := 1, price := 100,
    pnl := -2, pnlcomm := -3 }

/-- C2 counterexample: from an empty ledger state, the close handler of
`trade_list.py` appends nothing for a dangling close — the event is
dropped (the code comments the branch `# no matching open → skip`), not
synthesized into a degraded entry-fields-null record as the claim states. -/
theorem dangling_close_counterexample :
    ({} : TLState).openStats.lookup danglingClose.tradeid = none ∧
    (tlNotifyTrade 5 none {} danglingClose).closedTrades = [] ∧
    tlNotifyTrade 5 none {} danglingClose = ({} : TLState) :=
  ⟨rfl, rfl, rfl⟩

/-- C2 (amended): a close notification with no matching open stat leaves
the `trade_list.py` ledger state entirely unchanged: the dangling close is
silently dropped and no record, degraded or otherwise, is appended. -/
theorem dangling_close_is_dropped (strategyBar : Nat) (lastAtr : Option ℚ)
    (s : TLState) (tr : ReportedTrade)
    (hopen : tr.isopen = false) (hclosed : tr.isclosed = true)
    (hmiss : s.openStats.lookup tr.tradeid = none) :
    tlNotifyTrade strategyBar lastAtr s tr = s := by
  simp [tlNotifyTrade, hopen, hclosed, hmiss]

/-- Closed witness for the amended C2. -/
theorem dangling_close_is_dropped_witness :
    tlNotifyTrade 5 none {} danglingClose = ({} : TLState) :=
  dangling_close_is_dropped 5 none {} danglingClose rfl rfl rfl

/-- Each per-bar update never lowers the running MAE. -/
theorem tlUpdateStat_mae_le (hi lo : ℚ) (st : OpenStat) :
    st.mae_abs ≤ (tlUpdateStat hi lo st).mae_abs := by
  cases h : st.price_in <;> simp [tlUpdateStat, h, le_max_left]

/-- Each per-bar update never lowers the running MFE. -/
theorem tlUpdateStat_mfe_le (hi lo : ℚ) (st : OpenStat) :
    st.mfe_abs ≤ (tlUpdateStat hi lo st).mfe_abs := by
  cases h : st.price_in <;> simp [tlUpdateStat, h, le_max_left]

/-- Over any sequence of bars the running MAE never decreases. -/
theorem tlRunBars_mae_le (bars : List (ℚ × ℚ)) (st : OpenStat) :
    st.mae_abs ≤ (tlRunBars bars st).mae_abs := by
  induction bars generalizing st with
  | nil => exact le_refl _
  | cons hd tl ih =>
    have h2 := ih (tlUpdateStat hd.1 hd.2 st)
    simp only [tlRunBars, List.foldl] at h2 ⊢
    exact le_trans (tlUpdateStat_mae_le hd.1 hd.2 st) h2

/-- Over any sequence of bars the running MFE never decreases. -/
theorem tlRunBars_mfe_le (bars : List (ℚ × ℚ)) (st : OpenStat) :
    st.mfe_abs ≤ (tlRunBars bars st).mfe_abs := by
  induction bars generalizing st with
  | nil => exact le_refl _
  | cons hd tl ih =>
    have h2 := ih (tlUpdateStat hd.1 hd.2 st)
    simp only [tlRunBars, List.foldl] at h2 ⊢
    exact le_trans (tlUpdateStat_mfe_le hd.1 hd.2 st) h2

/-- C7: an open stat is created with MAE = MFE = 0; each per-bar excursion
update replaces each field with the max of its previous value and this
bar's adverse/favorable move, never lowering it; hence over any sequence
of bars both running excursions are non-negative and non-decreasing. -/
theorem mae_mfe_nonneg_monotone (strategyBar : Nat) (lastAtr : Option ℚ)
    (tr : ReportedTrade) (hi lo : ℚ) (st : OpenStat) (bars : List (ℚ × ℚ))
    (hm : 0 ≤ st.mae_abs) (hf : 0 ≤ st.mfe_abs) :
    (tlOpenStat strategyBar lastAtr tr).mae_abs = 0 ∧
    (tlOpenStat strategyBar lastAtr tr).mfe_abs = 0 ∧
    st.mae_abs ≤ (tlUpdateStat hi lo st).mae_abs ∧
    st.mfe_abs ≤ (tlUpdateStat hi lo st).mfe_abs ∧
    0 ≤ (tlRunBars bars st).mae_abs ∧ 0 ≤ (tlRunBars bars st).mfe_abs ∧
    st.mae_abs ≤ (tlRunBars bars st).mae_abs ∧
    st.mfe_abs ≤ (tlRunBars bars st).mfe_abs :=
  ⟨rfl, rfl, tlUpdateStat_mae_le hi lo st, tlUpdateStat_mfe_le hi lo st,
   le_trans hm (tlRunBars_mae_le bars st), le_trans hf (tlRunBars_mfe_le bars st),
   tlRunBars_mae_le bars st, tlRunBars_mfe_le bars st⟩

/-- An open notification used to seed an open stat. -/
def openTradeSample : ReportedTrade :=
  { tradeid := 2, isopen := true, isclosed := false, size := 1, price := 100,
    pnl := 0, pnlcomm := 0 }

/-- The stat created for `openTradeSample` at bar 3 with ATR snapshot 2. -/
def sampleStat : OpenStat := tlOpenStat 3 (some 2) openTradeSample

/-- Closed witness for C7 on the sample stat over two concrete bars. -/
theorem mae_mfe_nonneg_monotone_witness :
    (tlOpenStat 3 (some 2) openTradeSample).mae_abs = 0 ∧
    (tlOpenStat 3 (some 2) openTradeSample).mfe_abs = 0 ∧
    sampleStat.mae_abs ≤ (tlUpdateStat 101 99 sampleStat).mae_abs ∧
    sampleStat.mfe_abs ≤ (tlUpdateStat 101 99 sampleStat).mfe_abs ∧
    0 ≤ (tlRunBars [(101, 99), (102, 98)] sampleStat).mae_abs ∧
    0 ≤ (tlRunBars [(101, 99), (102, 98)] sampleStat).mfe_abs ∧
    sampleStat.mae_abs ≤ (tlRunBars [(101, 99), (102, 98)] sampleStat).mae_abs ∧
    sampleStat.mfe_abs ≤ (tlRunBars [(101, 99), (102, 98)] sampleStat).mfe_abs :=
  mae_mfe_nonneg_monotone 3 (some 2) openTradeSample 101 99 sampleStat
    [(101, 99), (102, 98)]
    (of_decide_eq_true (by with_unfolding_all rfl))
    (of_decide_eq_true (by with_unfolding_all rfl))

/-- C8: when no explicit fill price is recoverable from the trade's
history (no last event with a price on either its event or its status),
the backup analyzer's derived exit price is
entry price + gross pnl ÷ size, and entry price alone when the size is
zero; the fallback is a total function — the condition never surfaces as
a failure. -/
theorem missing_exit_price_fallback (hist : List HistEvent) (tr : ReportedTrade)
    (entry_px entry_sz : ℚ) (hnone : bakHistLastPx hist = none) :
    (entry_sz ≠ 0 → exitFromHist hist tr entry_px entry_sz = entry_px + tr.pnl / entry_sz) ∧
    (entry_sz = 0 → exitFromHist hist tr entry_px entry_sz = entry_px) := by
  constructor <;> intro h <;> simp [exitFromHist, hnone, h]

/-- Closed witness for C8 on an empty history with entry 100, size 2. -/
theorem missing_exit_price_fallback_witness :
    ((2 : ℚ) ≠ 0 → exitFromHist [] closedTrade 100 2 = 100 + closedTrade.pnl / 2) ∧
    ((2 : ℚ) = 0 → exitFromHist [] closedTrade 100 2 = 100) :=
  missing_exit_price_fallback [] closedTrade 100 2 rfl

/-- C6: derived metrics of a finalized record.  In the backup analyzer's
row the notional is price_in × |size|, and mae_pct, mfe_pct and ret_pct
are the corresponding excursion (resp. the net pnl) divided by that
notional, all 0 when the notional is 0.  In the current analyzer's record
atr_pct is the ATR-at-entry snapshot divided by the entry price when both
are present and nonzero, and null when either is absent. -/
theorem closed_record_derived_metrics
    (atr_e close_e : Option ℚ) (stB : BakStat) (tr : ReportedTrade)
    (st2 st3 : OpenStat) (strategyBar : Nat) (tr2 : ReportedTrade) (px a : ℚ)
    (r : BakRec) (hr : r = bakCloseRow atr_e close_e stB tr)
    (hpx : st2.price_in = some px) (hpxne : px ≠ 0) (hp3 : st3.price_in = none) :
    (r.price_in * |r.size| ≠ 0 →
       r.mae_pct = r.mae_abs / (r.price_in * |r.size|) ∧
       r.mfe_pct = r.mfe_abs / (r.price_in * |r.size|) ∧
       r.ret_pct = r.pnl_comm / (r.price_in * |r.size|)) ∧
    (r.price_in * |r.size| = 0 →
       r.mae_pct = 0 ∧ r.mfe_pct = 0 ∧ r.ret_pct = 0) ∧
    (st2.atr_entry = some a → a ≠ 0 →
       (tlCloseRec st2 strategyBar tr2).atr_pct = some (a / px)) ∧
    (st2.atr_entry = none → (tlCloseRec st2 strategyBar tr2).atr_pct = none) ∧
    ((tlCloseRec st3 strategyBar tr2).atr_pct = none) := by
  subst hr
  refine ⟨?_, ?_, ?_, ?_, ?_⟩
  · intro h
    simp only [bakCloseRow] at h ⊢
    exact ⟨by simp [h], by simp [h], by simp [h]⟩
  · intro h
    simp only [bakCloseRow] at h ⊢
    exact ⟨by simp [h], by simp [h], by simp [h]⟩
  · intro ha hane
    simp [tlCloseRec, hpx, ha, hpxne, hane]
  · intro ha
    simp [tlCloseRec, hpx, ha]
  · simp [tlCloseRec, hp3]


/-- A backup-analyzer stat with running MAE 3 and MFE 4. -/
def bakSampleStat : BakStat :=
  { entry_px := some 100, size := some 2, mae_abs := 3, mfe_abs := 4 }

/-- A close notification with empty history, entry 100, size 2. -/
def bakCloseTrade : ReportedTrade :=
  { tradeid := 9, isopen := false, isclosed := true, size := 2, price := 100,
    pnl := 10, pnlcomm := 8 }

/-- An open stat with entry price 100 and ATR snapshot 2. -/
def openStatPx : OpenStat :=
  { tradeid := 9, price_in := some 100, size := 2, entry_bar := 3,
    atr_entry := some 2, mae_abs := 3, mfe_abs := 4 }

/-- An open stat with a missing entry price. -/
def openStatNoPx : OpenStat :=
  { tradeid := 10, price_in := none, size := 2, entry_bar := 3,
    atr_entry := some 2, mae_abs := 0, mfe_abs := 0 }

/-- Closed witness for C6 on a concrete closed trade (notional 200). -/
theorem closed_record_derived_metrics_witness :
    ((bakCloseRow (some 2) (some 100) bakSampleStat bakCloseTrade).price_in *
        |(bakCloseRow (some 2) (some 100) bakSampleStat bakCloseTrade).size| ≠ 0 →
       (bakCloseRow (some 2) (some 100) bakSampleStat bakCloseTrade).mae_pct =
         (bakCloseRow (some 2) (some 100) bakSampleStat bakCloseTrade).mae_abs /
           ((bakCloseRow (some 2) (some 100) bakSampleStat bakCloseTrade).price_in *
             |(bakCloseRow (some 2) (some 100) bakSampleStat bakCloseTrade).size|) ∧
       (bakCloseRow (some 2) (some 100) bakSampleStat bakCloseTrade).mfe_pct =
         (bakCloseRow (some 2) (some 100) bakSampleStat bakCloseTrade).mfe_abs /
           ((bakCloseRow (some 2) (some 100) bakSampleStat bakCloseTrade).price_in *
             |(bakCloseRow (some 2) (some 100) bakSampleStat bakCloseTrade).size|) ∧
       (bakCloseRow (some 2) (some 100) bakSampleStat bakCloseTrade).ret_pct =
         (bakCloseRow (some 2) (some 100) bakSampleStat bakCloseTrade).pnl_comm /
           ((bakCloseRow (some 2) (some 100) bakSampleStat bakCloseTrade).price_in *
             |(bakCloseRow (some 2) (some 100) bakSampleStat bakCloseTrade).size|)) ∧
    ((bakCloseRow (some 2) (some 100) bakSampleStat bakCloseTrade).price_in *
        |(bakCloseRow (some 2) (some 100) bakSampleStat bakCloseTrade).size| = 0 →
       (bakCloseRow (some 2) (some 100) bakSampleStat bakCloseTrade).mae_pct = 0 ∧
       (bakCloseRow (some 2) (some 100) bakSampleStat bakCloseTrade).mfe_pct = 0 ∧
       (bakCloseRow (some 2) (some 100) bakSampleStat bakCloseTrade).ret_pct = 0) ∧
    (openStatPx.atr_entry = some 2 → (2 : ℚ) ≠ 0 →
       (tlCloseRec openStatPx 9 bakCloseTrade).atr_pct = some (2 / 100)) ∧
    (openStatPx.atr_entry = none → (tlCloseRec openStatPx 9 bakCloseTrade).atr_pct = none) ∧
    ((tlCloseRec openStatNoPx 9 bakCloseTrade).atr_pct = none) :=
  closed_record_derived_metrics (some 2) (some 100) bakSampleStat bakCloseTrade
    openStatPx openStatNoPx 9 bakCloseTrade 100 2
    (bakCloseRow (some 2) (some 100) bakSampleStat bakCloseTrade) rfl rfl
    (of_decide_eq_true (by with_unfolding_all rfl)) rfl

end HmaBt
